import Mathlib

/-!
Verification of the mlforge `Pipeline` step-resolution and argument-binding
engine (src/mlforge/mlforge.py) against its specification.

The embedding is shallow: Python values appearing in descriptors, argument
maps and registries are modelled by the inductive `PyVal`; Python classes by
`PyType` (a name plus its attributes, each flagged by whether its stored
value is `None` — together all `hasattr` / `getattr`-on-a-class
observations the engine makes); dictionaries by
association lists looked up in insertion order (Python dict keys are unique,
so theorems that need it take a `Nodup` hypothesis on the key list).
Fallible methods (`ValueError`, `AttributeError`, ... in the source) return
`Except`.
-/

namespace MLForge

/-- A Python class, as observed by the engine: its name and its attributes
as `hasattr(cls, ·)` reports them. The `Bool` paired with each attribute
name records whether the attribute's stored value is Python `None` — in
that case `getattr(cls, name)` returns `None`, which the engine's
`is not None` checks cannot tell apart from a failed lookup (e.g. the
repository's own `Stage` dataclass has fields defaulted to `None`). -/
structure PyType where
  name : String
  attrs : List (String × Bool)
deriving Repr, DecidableEq

/-- Python values that flow through argument maps and registries.
`vunhashable` stands for any unhashable value (list / dict / set), identified
by a tag; the engine never inspects such a value beyond its unhashability. -/
inductive PyVal where
  | vnone : PyVal
  | vstr : String → PyVal
  | vint : Int → PyVal
  | vobj : Nat → PyVal
  | vtype : PyType → PyVal
  | vunhashable : Nat → PyVal
deriving Repr, DecidableEq

/-- The check `isinstance(v, typing.Hashable)` in `_build_params`. -/
def PyVal.hashable : PyVal → Bool
  | .vunhashable _ => false
  | _ => true

/-- First-match association-list lookup: a Python dict read. -/
def alookup {α β : Type} [DecidableEq α] : List (α × β) → α → Option β
  | [], _ => none
  | (k, v) :: rest, key => if k = key then some v else alookup rest key

/-- An explicit argument map (`method_arguments` / `stage.arguments`). -/
abbrev ArgMap := List (String × PyVal)

/-- Declared parameters of the resolved method, in declaration order, with
their default values; `none` is the `inspect.Parameter.empty` sentinel. -/
abbrev Params := List (String × Option PyVal)

/-- The state `_build_params` reads: the host's attributes (empty when
`host is None`), the `objects_` registry (keyed by Python values — its keys
are the strings under which objects were registered), and the engine
module's `globals()`. -/
structure BuildCtx where
  hostAttrs : List (String × PyVal)
  objects : List (PyVal × PyVal)
  globs : List (String × PyVal)
deriving Repr, DecidableEq

/-- Errors `_build_params` raises (both are `ValueError`s in the source,
with distinct messages). -/
inductive BuildError where
  | unresolvedParameter : String → BuildError
  | unexpectedArgument : String → BuildError
deriving Repr, DecidableEq

/-- mlforge.py lines 571-586: resolution of an explicit argument value.
Unhashable values are taken literally; otherwise a value that is a key of
`objects_` is replaced by the registered object; otherwise a string naming a
host attribute is replaced by that attribute's value; otherwise literal. -/
def resolveArgValue (ctx : BuildCtx) (v : PyVal) : PyVal :=
  if v.hashable = false then v
  else
    match alookup ctx.objects v with
    | some o => o
    | none =>
      match v with
      | .vstr s =>
        match alookup ctx.hostAttrs s with
        | some hv => hv
        | none => v
      | _ => v

/-- One iteration of the `_build_params` loop (mlforge.py lines 562-600):
the value bound to a single declared parameter `p` with default `dflt`. -/
def buildOne (ctx : BuildCtx) (args : Option ArgMap) (p : String)
    (dflt : Option PyVal) : Except BuildError PyVal :=
  match (match args with | some m => alookup m p | none => none) with
  | some v => .ok (resolveArgValue ctx v)
  | none =>
    match alookup ctx.hostAttrs p with
    | some hv => .ok hv
    | none =>
      match alookup ctx.globs p with
      | some gv => .ok gv
      | none =>
        match dflt with
        | some d => .ok d
        | none => .error (.unresolvedParameter p)

/-- The `_build_params` loop over all declared parameters, in declaration
order, stopping at the first unresolvable one. -/
def buildLoop (ctx : BuildCtx) (args : Option ArgMap) :
    Params → Except BuildError ArgMap
  | [] => .ok []
  | (p, d) :: rest =>
    match buildOne ctx args p d with
    | .error e => .error e
    | .ok v =>
      match buildLoop ctx args rest with
      | .error e => .error e
      | .ok tail => .ok ((p, v) :: tail)

/-- The method `Pipeline._build_params` (mlforge.py lines 538-611): the per-parameter
loop followed by the leftover-argument check (lines 605-609): the first key
of `method_arguments` absent from the built `params` raises. -/
def build_params (ctx : BuildCtx) (params : Params) (args : Option ArgMap) :
    Except BuildError ArgMap :=
  match buildLoop ctx args params with
  | .error e => .error e
  | .ok res =>
    match args with
    | none => .ok res
    | some m =>
      match m.find? (fun kv => (alookup res kv.1).isNone) with
      | some kv => .error (.unexpectedArgument kv.1)
      | none => .ok res

/-- Follows the spec's words (§4.3 Argument Builder), steps (2)-(5): when
the explicit arguments do not bind the parameter, use a host attribute of
the parameter's name, else a process-wide global, else the declared default,
else unresolvable (`none`). -/
def specFallback (ctx : BuildCtx) (p : String) (dflt : Option PyVal) :
    Option PyVal :=
  match alookup ctx.hostAttrs p with
  | some hv => some hv
  | none =>
    match alookup ctx.globs p with
    | some gv => some gv
    | none => dflt

/-- Follows the spec's words (§4.3 Argument Builder), for comparison with
`build_params`: per declared parameter, (1) if the explicit arguments
contain it: (a) an unhashable value is used literally, (b) else a registry
key is replaced by the registered object, (c) else a string naming a host
attribute is replaced by that attribute's value, otherwise the string is
literal, (d) else the value is literal; otherwise the fall-back chain
`specFallback` (steps (2)-(5)). -/
def specResolveParam (ctx : BuildCtx) (args : Option ArgMap) (p : String)
    (dflt : Option PyVal) : Option PyVal :=
  match args with
  | none => specFallback ctx p dflt
  | some m =>
    match alookup m p with
    | none => specFallback ctx p dflt
    | some v =>
      if v.hashable = false then some v
      else
        match alookup ctx.objects v with
        | some o => some o
        | none =>
          match v with
          | .vstr s =>
            match alookup ctx.hostAttrs s with
            | some hv => some hv
            | none => some v
          | _ => some v

/-! ## Name Resolver and Descriptor Parser -/

/-- An element of a step descriptor tuple, classified the way
`_parse_step` / `_get_callable_method` classify it via `isinstance`:
a string, a type, a dict (an argument map), or any other value. -/
inductive DElem where
  | dstr : String → DElem
  | dtype : PyType → DElem
  | ddict : ArgMap → DElem
  | dother : PyVal → DElem
deriving Repr, DecidableEq

/-- Python exceptions the parser / resolver raise. -/
inductive PyError where
  | valueError : String → PyError
  | attributeError : String → PyError
  | typeError : String → PyError
  | assertionError : String → PyError
deriving Repr, DecidableEq

/-- The invocable `_get_callable_method` returns, as a symbolic token
recording which `getattr` produced it. -/
inductive Callable where
  | classAttr : PyType → String → Callable
  | moduleClass : PyType → Callable
  | hostAttr : String → Callable
  | selfAttr : String → Callable
  | globalFn : String → Callable
  | dottedHost : String → String → Callable
  | dottedObj : String → String → Callable
deriving Repr, DecidableEq

/-- The check `hasattr(T, m)` on a class. -/
def PyType.hasattr (T : PyType) (m : String) : Bool :=
  (alookup T.attrs m).isSome

/-- The value `getattr(T, m)` as the engine observes it: `none` when the
attribute's stored value is Python `None` (observably identical to absence
for every `is not None` caller), otherwise a callable token. The engine
only evaluates it under a `hasattr` guard; off that domain it is `none`. -/
def PyType.getattr (T : PyType) (m : String) : Option Callable :=
  match alookup T.attrs m with
  | some true => none
  | some false => some (.classAttr T m)
  | none => none

/-- The scopes `_get_callable_method` consults besides an explicit class:
the host's attribute names (empty when `host is None`), the `Pipeline`
object's own attribute names, the engine module's `globals()` names, and the
keys of the `objects_` registry (for the dotted-path root). Attributes of
registry / host objects themselves are opaque: the final `getattr` on them
is recorded as a token and not further checked. -/
structure ResolveCtx where
  hostAttrNames : List String
  selfAttrNames : List String
  globalNames : List String
  objectNames : List String
deriving Repr, DecidableEq

/-- The method `Pipeline._get_callable_method` (mlforge.py lines 470-536). Arguments
arrive unclassified (the parser passes raw tuple elements): the initial
assert requires the method argument to be a string or `None`; a non-type
class argument raises `AttributeError`; with a class and a method name,
`hasattr` guards a plain `getattr` whose value is returned as is — so an
attribute stored as `None` yields `None`, indistinguishable from the
trailing `return None` — with no fallthrough to the other scopes. -/
def get_callable_method (ctx : ResolveCtx) (methodArg : Option DElem)
    (classArg : Option DElem) : Except PyError (Option Callable) :=
  match methodArg with
  | some (.dtype _) | some (.ddict _) | some (.dother _) =>
    .error (.assertionError "Method name must be a string or None")
  | some (.dstr m) => resolveName ctx (some m) classArg
  | none => resolveName ctx none classArg
where
  /-- The body after the assert, with the method name validated. -/
  resolveName (ctx : ResolveCtx) (mName : Option String)
      (classArg : Option DElem) : Except PyError (Option Callable) :=
    match classArg with
    | some (.dtype T) =>
      match mName with
      | some m =>
        if T.hasattr m then .ok (T.getattr m) else .ok none
      | none => .ok (some (.moduleClass T))
    | some _ => .error (.attributeError "Parameter must be a class")
    | none =>
      match mName with
      | none => .error (.typeError "attribute name must be a string")
      | some m =>
        if ctx.hostAttrNames.contains m then .ok (some (.hostAttr m))
        else if ctx.selfAttrNames.contains m then .ok (some (.selfAttr m))
        else if ctx.globalNames.contains m then .ok (some (.globalFn m))
        else if m.contains (Char.ofNat 46) then
          match m.splitOn "." with
          | [objName, rest] =>
            if ctx.hostAttrNames.contains objName then
              .ok (some (.dottedHost objName rest))
            else if ctx.objectNames.contains objName then
              .ok (some (.dottedObj objName rest))
            else .error (.valueError ("Object " ++ objName ++ " not found in host object"))
          | _ => .error (.valueError "too many values to unpack")
        else .ok none

/-- The canonical record `_parse_step` returns. The attribute and argument
slots hold raw tuple elements: the source does not force the attribute slot
of a 4-tuple to be a string, nor the argument slot of a
`(name, Class, args)` 3-tuple to be a dict. -/
structure Parsed where
  attribute_name : Option DElem
  method_name : Option String
  class_name : Option PyType
  arguments : Option DElem
deriving Repr, DecidableEq

/-- The method `Pipeline._parse_step` (mlforge.py lines 347-468), on a descriptor
already normalized to a tuple (a bare string / type becomes a 1-tuple).
Shape errors are `ValueError`s; arity violations are assert failures; the
2- and 3-element ambiguous cases probe `_get_callable_method`, whose own
exceptions propagate. -/
def parse_step (ctx : ResolveCtx) (step : List DElem) : Except PyError Parsed :=
  match step with
  | [] => .error (.assertionError "Tuple must have between 1 and 4 elements")
  | [e0] =>
    match e0 with
    | .dstr s => .ok ⟨none, some s, none, none⟩
    | .dtype T => .ok ⟨none, none, some T, none⟩
    | _ => .error (.valueError "Parameter must be a string or a class")
  | [e0, e1] =>
    match e1 with
    | .dtype T =>
      match e0 with
      | .dstr s =>
        match get_callable_method ctx (some (.dstr s)) (some (.dtype T)) with
        | .error e => .error e
        | .ok (some _) => .ok ⟨none, some s, some T, none⟩
        | .ok none => .ok ⟨some (.dstr s), none, some T, none⟩
      | _ => .error (.valueError "First element of tuple must be a string or a method name, when the second element is a class")
    | .ddict m =>
      match e0 with
      | .dstr s => .ok ⟨none, some s, none, some (.ddict m)⟩
      | _ => .error (.valueError "Tuple with 2 elements must be either (str, class), (str, str) or (str, dict)")
    | .dstr s1 =>
      match e0 with
      | .dstr s0 => .ok ⟨some (.dstr s0), some s1, none, none⟩
      | _ => .error (.valueError "Tuple with 2 elements must be either (str, class), (str, str) or (str, dict)")
    | _ => .error (.valueError "Tuple with 2 elements must be either (str, class), (str, str) or (str, dict)")
  | [e0, e1, e2] =>
    match e0, e1 with
    | .dstr s0, .dstr s1 =>
      match e2 with
      | .dtype T => .ok ⟨some (.dstr s0), some s1, some T, none⟩
      | .ddict m => .ok ⟨some (.dstr s0), some s1, none, some (.ddict m)⟩
      | _ => .error (.valueError "Tuple with 3 elements must be (str, str, class) or (str, str, dict)")
    | _, _ =>
      match get_callable_method ctx (some e0) (some e1) with
      | .error e => .error e
      | .ok r =>
        match e1, e0 with
        | .dtype T, .dstr s0 =>
          match r with
          | none => .ok ⟨some (.dstr s0), none, some T, some e2⟩
          | some _ => .ok ⟨none, some s0, some T, some e2⟩
        | _, _ =>
          .error (.valueError "Tuple with 3 elements must be either (str, str, dict) or (str, class, dict)")
  | [e0, e1, e2, e3] =>
    match e1, e2, e3 with
    | .dstr s1, .dtype T, .ddict m =>
      .ok ⟨some e0, some s1, some T, some (.ddict m)⟩
    | _, _, _ =>
      .error (.valueError "Tuple with 4 elements must be (str, str, class, dict)")
  | _ => .error (.assertionError "Tuple must have between 1 and 4 elements")

/-! ## Stage Executor -/

/-- The resolved target handed to `_run_step` (`stage._method_call`),
classified the way the executor's `isinstance` checks classify it: a string,
a function / bound method (as a token), a class, or `None`. -/
inductive StepTarget where
  | pystr : String → StepTarget
  | pyfun : String → StepTarget
  | pyclass : PyType → StepTarget
  | pynone : StepTarget
deriving Repr, DecidableEq

/-- What `_run_step` does, recorded as data: call a function / bound method
with the built kwargs; instantiate a class, call `fit()` on the instance and
return it; instantiate a class and return the instance with no further call;
call a method found as a host attribute; or resolve `object.method` and call
it. -/
inductive RunAction where
  | callTarget : String → ArgMap → RunAction
  | constructFit : PyType → ArgMap → RunAction
  | construct : PyType → ArgMap → RunAction
  | callHostMethod : String → ArgMap → RunAction
  | callDotted : String → String → ArgMap → RunAction
deriving Repr, DecidableEq

/-- What `_run_step` reads: the engine module's `globals()` (a string-keyed
dict — so `step_name in globals()` can only succeed for a string target) and
the host's attributes with their targets. -/
structure ExecCtx where
  moduleGlobals : List (String × StepTarget)
  hostAttrs : List (String × StepTarget)
deriving Repr, DecidableEq

/-- The method `Pipeline._run_step` (mlforge.py lines 613-688). Branches, in source
order: (1) a string target that is a key of the engine module's `globals()`
is replaced by the global value — a function is called, a class is
instantiated and `fit()` is called on the instance unconditionally;
(2) a non-string target with a `__module__` attribute — a function is
called, a class is instantiated and returned with no `fit` call;
(3) a string target that is a host attribute — called if it is a function;
(4) a remaining string is required to be a single-level `object.method`
chain rooted at a host attribute. Attribute presence on the dotted object
itself is opaque and not modelled. -/
def run_step (ctx : ExecCtx) (step : StepTarget) (params : ArgMap) :
    Except PyError RunAction :=
  match step with
  | .pystr s =>
    match alookup ctx.moduleGlobals s with
    | some g =>
      match g with
      | .pyfun f => .ok (.callTarget f params)
      | .pyclass T => .ok (.constructFit T params)
      | _ => .error (.typeError "step_name must be a class or a function")
    | none =>
      match alookup ctx.hostAttrs s with
      | some hv =>
        match hv with
        | .pyfun _ => .ok (.callHostMethod s params)
        | _ => .error (.typeError "step_name inside host object must be a function")
      | none =>
        if s.contains (Char.ofNat 46) then
          match s.splitOn "." with
          | [objName, meth] =>
            match alookup ctx.hostAttrs objName with
            | some _ => .ok (.callDotted objName meth params)
            | none => .error (.attributeError ("host object has no attribute " ++ objName))
          | _ => .error (.attributeError "attribute lookup with dotted name")
        else .error (.valueError ("step_name (" ++ s ++ ") must be object's method: object.method"))
  | .pyfun f => .ok (.callTarget f params)
  | .pyclass T => .ok (.construct T params)
  | .pynone => .error (.typeError "step_name must be a class or a function")

/-! ## Pipeline Container -/

/-- A pipeline stage, restricted to the fields the container's query helpers
read. -/
structure Stage where
  attribute_name : Option String
  method_name : Option String
  arguments : Option ArgMap
deriving Repr, DecidableEq

/-- The pipeline state the claims about `__init__` / `get_attribute` need:
the host value, its attributes, the `attributes_` store, the `objects_`
registry and the `run_` flag. -/
structure PipelineState where
  hostVal : PyVal
  hostAttrs : List (String × PyVal)
  attributes_ : List (String × PyVal)
  objects_ : List (PyVal × PyVal)
  run_ : Bool
deriving Repr, DecidableEq

/-- The constructor `Pipeline.__init__` (mlforge.py lines 109-119): empty attribute store,
the registry seeded with `{'host': host}`, run flag off. -/
def Pipeline.init (hostVal : PyVal) (hostAttrs : List (String × PyVal)) :
    PipelineState :=
  { hostVal := hostVal
    hostAttrs := hostAttrs
    attributes_ := []
    objects_ := [(.vstr "host", hostVal)]
    run_ := false }

/-- The method `Pipeline.get_attribute` (mlforge.py lines 804-815): `None` before the
run completed; afterwards the stored value, or `AttributeError`. -/
def get_attribute (run_ : Bool) (attributes_ : List (String × PyVal))
    (name : String) : Except PyError PyVal :=
  if run_ then
    match alookup attributes_ name with
    | some v => .ok v
    | none => .error (.attributeError ("Attribute " ++ name ++ " not found"))
  else .ok .vnone

/-- The shared test the three argument-query helpers make on a stage
(mlforge.py lines 982-983, 1014-1015, 1042-1043):
`stage.arguments is not None and stage.arguments.get(name) is not None`,
yielding the stored value when it passes. A stored `None` fails the test
exactly like an absent key. -/
def argGet (args : Option ArgMap) (a : String) : Option PyVal :=
  match args with
  | none => none
  | some m =>
    match alookup m a with
    | some v => if v = .vnone then none else some v
    | none => none

/-- The method `Pipeline.contains_argument` (mlforge.py lines 955-986): the number of
stages whose argument map binds the name to a non-`None` value. -/
def contains_argument : List Stage → String → Nat
  | [], _ => 0
  | st :: rest, a =>
    (match argGet st.arguments a with | some _ => 1 | none => 0) +
      contains_argument rest a

/-- The method `Pipeline.get_argument_value` (mlforge.py lines 988-1018): the value
from the first stage whose argument map binds the name to a non-`None`
value, else `None`. -/
def get_argument_value : List Stage → String → Option PyVal
  | [], _ => none
  | st :: rest, a =>
    match argGet st.arguments a with
    | some v => some v
    | none => get_argument_value rest a

/-- The method `Pipeline.all_argument_values` (mlforge.py lines 1020-1046): all
non-`None` values bound to the name, in stage order. -/
def all_argument_values : List Stage → String → List PyVal
  | [], _ => []
  | st :: rest, a =>
    match argGet st.arguments a with
    | some v => v :: all_argument_values rest a
    | none => all_argument_values rest a

/-! ## Helper lemmas -/

theorem alookup_eq_none {α β : Type} [DecidableEq α] :
    ∀ (l : List (α × β)) (k : α), alookup l k = none ↔ k ∉ l.map Prod.fst := by
  intro l
  induction l with
  | nil => intro k; simp [alookup]
  | cons kv rest ih =>
    obtain ⟨a, b⟩ := kv
    intro k
    by_cases h : a = k
    · subst h; simp [alookup]
    · simp [alookup, h, ih k, Ne.symm h]

theorem alookup_isSome_of_mem {α β : Type} [DecidableEq α]
    (l : List (α × β)) (k : α) (h : k ∈ l.map Prod.fst) :
    (alookup l k).isSome := by
  cases hl : alookup l k with
  | none => exact absurd ((alookup_eq_none l k).mp hl) (not_not_intro h)
  | some v => rfl

/-- The loop body `buildOne` agrees with the spec's per-parameter resolution:
it succeeds exactly when the spec resolves, with the same value, and fails
with `UnresolvedParameter` exactly when the spec says unresolvable. -/
theorem buildOne_eq_spec (ctx : BuildCtx) (args : Option ArgMap) (p : String)
    (d : Option PyVal) :
    buildOne ctx args p d =
      match specResolveParam ctx args p d with
      | some v => .ok v
      | none => .error (.unresolvedParameter p) := by
  cases args with
  | none =>
    simp only [buildOne, specResolveParam, specFallback]
    cases alookup ctx.hostAttrs p <;> cases alookup ctx.globs p <;> cases d <;> rfl
  | some m =>
    simp only [buildOne, specResolveParam, specFallback]
    cases hv : alookup m p with
    | none =>
      cases alookup ctx.hostAttrs p <;> cases alookup ctx.globs p <;> cases d <;> rfl
    | some v =>
      simp only [resolveArgValue]
      by_cases hh : v.hashable = false
      · rw [if_pos hh, if_pos hh]
      · rw [if_neg hh, if_neg hh]
        cases ho : alookup ctx.objects v with
        | some o => rfl
        | none =>
          cases v with
          | vstr s => cases hs : alookup ctx.hostAttrs s <;> simp [hs]
          | vnone => rfl
          | vint n => rfl
          | vobj n => rfl
          | vtype T => rfl
          | vunhashable n => rfl

theorem buildLoop_ok_keys (ctx : BuildCtx) (args : Option ArgMap) :
    ∀ (ps : Params) (res : ArgMap), buildLoop ctx args ps = .ok res →
      res.map Prod.fst = ps.map Prod.fst := by
  intro ps
  induction ps with
  | nil =>
    intro res h
    simp only [buildLoop] at h
    cases h
    rfl
  | cons pd rest ih =>
    obtain ⟨p, d⟩ := pd
    intro res h
    simp only [buildLoop] at h
    cases h1 : buildOne ctx args p d <;> rw [h1] at h
    · cases h
    · cases h2 : buildLoop ctx args rest <;> rw [h2] at h
      · cases h
      · cases h
        simp [ih _ h2]

theorem buildLoop_lookup (ctx : BuildCtx) (args : Option ArgMap) :
    ∀ (ps : Params) (res : ArgMap), (ps.map Prod.fst).Nodup →
      buildLoop ctx args ps = .ok res →
      ∀ (p : String) (d : Option PyVal), (p, d) ∈ ps →
        alookup res p = specResolveParam ctx args p d := by
  intro ps
  induction ps with
  | nil => intro res _ _ p d hmem; cases hmem
  | cons pd rest ih =>
    obtain ⟨q, e⟩ := pd
    intro res hnodup h p d hmem
    simp only [buildLoop] at h
    cases h1 : buildOne ctx args q e with
    | error err => rw [h1] at h; cases h
    | ok v =>
      rw [h1] at h
      cases h2 : buildLoop ctx args rest with
      | error err => rw [h2] at h; cases h
      | ok tail =>
        rw [h2] at h
        cases h
        rcases List.mem_cons.mp hmem with heq | hrest
        · injection heq with hpq hde
          subst hpq
          subst hde
          have hspec := buildOne_eq_spec ctx args p d
          rw [h1] at hspec
          cases hs : specResolveParam ctx args p d with
          | none => rw [hs] at hspec; cases hspec
          | some w =>
            rw [hs] at hspec
            cases hspec
            simp [alookup]
        · have hq : q ≠ p := by
            intro hqp
            subst hqp
            exact (List.nodup_cons.mp hnodup).1
              (List.mem_map.mpr ⟨(q, d), hrest, rfl⟩)
          have hskip : alookup ((q, v) :: tail) p = alookup tail p := by
            simp [alookup, hq]
          rw [hskip]
          exact ih tail (List.nodup_cons.mp hnodup).2 h2 p d hrest

theorem PyType.getattr_of_not_hasattr (T : PyType) (m : String)
    (h : T.hasattr m = false) : T.getattr m = none := by
  simp only [PyType.hasattr] at h
  simp only [PyType.getattr]
  cases ha : alookup T.attrs m with
  | none => rfl
  | some b => simp [ha] at h

/-- The class branch of the resolver: with a method name and a type, the
answer is the observed `getattr` value (in particular `None` both when the
attribute is absent and when its stored value is `None`). -/
theorem get_callable_method_class (ctx : ResolveCtx) (m : String)
    (T : PyType) :
    get_callable_method ctx (some (.dstr m)) (some (.dtype T)) =
      .ok (T.getattr m) := by
  simp only [get_callable_method, get_callable_method.resolveName]
  cases h : T.hasattr m with
  | true => simp [h]
  | false => simp [h, PyType.getattr_of_not_hasattr T m h]

theorem build_params_ok_loop (ctx : BuildCtx) (ps : Params)
    (args : Option ArgMap) (res : ArgMap)
    (h : build_params ctx ps args = .ok res) :
    buildLoop ctx args ps = .ok res := by
  unfold build_params at h
  split at h
  · cases h
  · rename_i r heq
    split at h
    · cases h; exact heq
    · split at h
      · cases h
      · cases h; exact heq

/-! ## Claims about the Argument Builder -/

/-- C1: `_build_params` resolves each declared parameter by the exact
precedence explicit argument > object-registry substitution > host-attribute
substitution of a string value > literal value, and, when the parameter is
absent from the explicit arguments, host attribute of the parameter's name >
process-wide global > declared default: every parameter of a successful
build is bound to exactly the value the spec's layered policy
(`specResolveParam`) prescribes — in particular a registry key passed as an
explicit value is substituted by the registered object even when the host
exposes an attribute of that name and the parameter has a default. -/
theorem build_params_resolves_by_precedence
    (ctx : BuildCtx) (ps : Params) (args : Option ArgMap) (res : ArgMap)
    (p : String) (d : Option PyVal)
    (hnodup : (ps.map Prod.fst).Nodup)
    (hok : build_params ctx ps args = .ok res)
    (hmem : (p, d) ∈ ps) :
    alookup res p = specResolveParam ctx args p d ∧
      (specResolveParam ctx args p d).isSome := by
  have hloop := build_params_ok_loop ctx ps args res hok
  have heq := buildLoop_lookup ctx args ps res hnodup hloop p d hmem
  refine ⟨heq, ?_⟩
  rw [← heq]
  refine alookup_isSome_of_mem res p ?_
  rw [buildLoop_ok_keys ctx args ps res hloop]
  exact List.mem_map.mpr ⟨(p, d), hmem, rfl⟩

/-- Witness for C1, on the spec's own scenario: declared `{p: 0}`, explicit
`{p: "v"}`, host exposing `p = 7` and `v = 8`, registry `{"v" ↦ obj₁}`:
the build binds `p` to the registered object (registry beats host-literal
and default). -/
theorem build_params_resolves_by_precedence_witness :
    build_params ⟨[("p", .vint 7), ("v", .vint 8)], [(.vstr "v", .vobj 1)], []⟩
        [("p", some (.vint 0))] (some [("p", .vstr "v")]) =
      .ok [("p", .vobj 1)] ∧
    alookup [("p", PyVal.vobj 1)] "p" =
      specResolveParam ⟨[("p", .vint 7), ("v", .vint 8)], [(.vstr "v", .vobj 1)], []⟩
        (some [("p", .vstr "v")]) "p" (some (.vint 0)) ∧
    specResolveParam ⟨[("p", .vint 7), ("v", .vint 8)], [(.vstr "v", .vobj 1)], []⟩
        (some [("p", .vstr "v")]) "p" (some (.vint 0)) = some (.vobj 1) := by
  refine ⟨rfl, ?_, rfl⟩
  exact (build_params_resolves_by_precedence
    ⟨[("p", .vint 7), ("v", .vint 8)], [(.vstr "v", .vobj 1)], []⟩
    [("p", some (.vint 0))] (some [("p", .vstr "v")]) [("p", .vobj 1)]
    "p" (some (.vint 0)) (by decide) rfl (by decide)).1

/-- C2: once the `_build_params` loop has processed all declared parameters,
an explicit-argument key that names no declared parameter makes the build
fail with `UnexpectedArgument` (naming an undeclared key), and when every
explicit key names a declared parameter no such error is raised and the
build returns a map covering exactly the declared parameters. -/
theorem build_params_unexpected_argument
    (ctx : BuildCtx) (ps : Params) (m : ArgMap) (res : ArgMap)
    (hloop : buildLoop ctx (some m) ps = .ok res) :
    ((∃ k ∈ m.map Prod.fst, k ∉ ps.map Prod.fst) →
      ∃ a, build_params ctx ps (some m) = .error (.unexpectedArgument a) ∧
        a ∉ ps.map Prod.fst) ∧
    ((∀ k ∈ m.map Prod.fst, k ∈ ps.map Prod.fst) →
      build_params ctx ps (some m) = .ok res ∧
        res.map Prod.fst = ps.map Prod.fst) := by
  have hkeys := buildLoop_ok_keys ctx (some m) ps res hloop
  constructor
  · rintro ⟨k, hk_m, hk_ps⟩
    have hpred : ∃ kv ∈ m, ((alookup res kv.1).isNone = true) := by
      obtain ⟨⟨k1, v1⟩, hmem, hfst⟩ := List.mem_map.mp hk_m
      cases hfst
      refine ⟨(k1, v1), hmem, ?_⟩
      have hnone : alookup res k1 = none :=
        (alookup_eq_none res k1).mpr (by rw [hkeys]; exact hk_ps)
      simp [hnone]
    cases hfind : m.find? (fun kv => (alookup res kv.1).isNone) with
    | none =>
      exfalso
      obtain ⟨kv, hmem, hp⟩ := hpred
      exact (List.find?_eq_none.mp hfind kv hmem) hp
    | some kv0 =>
      refine ⟨kv0.1, ?_, ?_⟩
      · simp only [build_params, hloop, hfind]
      · have hp := List.find?_some hfind
        have hnone : alookup res kv0.1 = none := by
          cases halo : alookup res kv0.1 with
          | none => rfl
          | some v => rw [halo] at hp; cases hp
        have := (alookup_eq_none res kv0.1).mp hnone
        rw [hkeys] at this
        exact this
  · intro hall
    have hfind : m.find? (fun kv => (alookup res kv.1).isNone) = none := by
      refine List.find?_eq_none.mpr ?_
      intro kv hmem
      have hk := hall kv.1 (List.mem_map.mpr ⟨kv, hmem, rfl⟩)
      have hsome : (alookup res kv.1).isSome :=
        alookup_isSome_of_mem res kv.1 (by rw [hkeys]; exact hk)
      cases halo : alookup res kv.1 with
      | none => rw [halo] at hsome; cases hsome
      | some v => simp
    refine ⟨?_, hkeys⟩
    simp only [build_params, hloop, hfind]

/-- Witness for C2: with declared `{a: 0}`, the explicit map `{typo: 1}`
fails with `UnexpectedArgument` on an undeclared key, and the explicit map
`{a: 2}` is consumed, yielding a map covering the declared parameter. -/
theorem build_params_unexpected_argument_witness :
    (∃ a, build_params ⟨[], [], []⟩ [("a", some (.vint 0))]
        (some [("typo", .vint 1)]) = .error (.unexpectedArgument a) ∧
        a ∉ ([("a", some (PyVal.vint 0))].map Prod.fst : List String)) ∧
    build_params ⟨[], [], []⟩ [("a", some (.vint 0))] (some [("a", .vint 2)]) =
      .ok [("a", .vint 2)] := by
  constructor
  · exact (build_params_unexpected_argument ⟨[], [], []⟩ [("a", some (.vint 0))]
      [("typo", .vint 1)] [("a", .vint 0)] rfl).1 ⟨"typo", by decide, by decide⟩
  · exact ((build_params_unexpected_argument ⟨[], [], []⟩ [("a", some (.vint 0))]
      [("a", .vint 2)] [("a", .vint 2)] rfl).2 (by decide)).1

/-- C10: `__init__` seeds the `objects_` registry with `'host' ↦ host`, so
an explicit argument whose value is the string `'host'` is substituted by
the host object itself in any successful build over the freshly initialized
registry — the registry entry shadows any literal reading of the string. -/
theorem init_registry_host_substitution
    (hostVal : PyVal) (hostAttrs globs : List (String × PyVal))
    (ps : Params) (m : ArgMap) (res : ArgMap) (p : String) (d : Option PyVal)
    (hnodup : (ps.map Prod.fst).Nodup)
    (hok : build_params ⟨hostAttrs, (Pipeline.init hostVal hostAttrs).objects_, globs⟩
      ps (some m) = .ok res)
    (hmem : (p, d) ∈ ps)
    (harg : alookup m p = some (.vstr "host")) :
    (Pipeline.init hostVal hostAttrs).objects_ = [(.vstr "host", hostVal)] ∧
    alookup res p = some hostVal := by
  refine ⟨rfl, ?_⟩
  have hloop := build_params_ok_loop _ ps (some m) res hok
  have heq := buildLoop_lookup _ (some m) ps res hnodup hloop p d hmem
  rw [heq]
  simp [specResolveParam, harg, Pipeline.init, alookup, PyVal.hashable]

/-- Witness for C10: host object `obj₅`, host attribute `host = 9`
colliding with the registry key: the build still binds `p` to the host
object itself. -/
theorem init_registry_host_substitution_witness :
    (Pipeline.init (PyVal.vobj 5) [("host", PyVal.vint 9)]).objects_ =
      [(PyVal.vstr "host", PyVal.vobj 5)] ∧
    alookup [("p", PyVal.vobj 5)] "p" = some (PyVal.vobj 5) :=
  init_registry_host_substitution (PyVal.vobj 5) [("host", PyVal.vint 9)] []
    [("p", some (PyVal.vint 0))] [("p", PyVal.vstr "host")] [("p", PyVal.vobj 5)]
    "p" (some (PyVal.vint 0)) (by decide) rfl (by decide) rfl

/-! ## Claims about the Descriptor Parser and Name Resolver -/

/-- C3 counterexample: the class Stage has the attribute `attribute_name`
(mirroring the repository's own Stage dataclass, whose fields default to
`None`), yet because the stored value is `None` the resolver probe returns
`None` and `_parse_step` takes the ATTRIBUTE branch — the result does not
have method_name = "attribute_name" as the claim requires whenever the type
has an attribute of that name. -/
theorem parse_pair_none_valued_attribute_cex :
    (⟨"Stage", [("attribute_name", true)]⟩ : PyType).hasattr "attribute_name" = true ∧
    parse_step ⟨[], [], [], []⟩
        [.dstr "attribute_name", .dtype ⟨"Stage", [("attribute_name", true)]⟩] =
      .ok ⟨some (.dstr "attribute_name"), none,
        some ⟨"Stage", [("attribute_name", true)]⟩, none⟩ ∧
    Parsed.method_name ⟨some (.dstr "attribute_name"), none,
        some ⟨"Stage", [("attribute_name", true)]⟩, none⟩ ≠ some "attribute_name" :=
  ⟨rfl, rfl, fun h => nomatch h⟩

/-- C3 (amended): a 2-element (name, type) descriptor is disambiguated by
probing the Name Resolver on the value of the class attribute: when
`getattr(T, name)` is non-None (T has the attribute and its stored value is
not `None`) the parse yields method_name = name with the type reference (no
attribute name); otherwise — T lacks the attribute, or has it with stored
value `None` — it yields attribute_name = name with the type reference (no
method name). The probe's outcome is exactly the resolver's answer. -/
theorem parse_pair_probes_resolver (ctx : ResolveCtx) (s : String)
    (T : PyType) :
    parse_step ctx [.dstr s, .dtype T] =
      (match T.getattr s with
        | some _ => .ok ⟨none, some s, some T, none⟩
        | none => .ok ⟨some (.dstr s), none, some T, none⟩) ∧
    get_callable_method ctx (some (.dstr s)) (some (.dtype T)) =
      .ok (T.getattr s) := by
  have hres := get_callable_method_class ctx s T
  refine ⟨?_, hres⟩
  simp only [parse_step, hres]
  cases T.getattr s <;> rfl

/-- C4: given a method name and a type reference, the resolver returns the
type's attribute of that name when the type has one (the `getattr` value,
which is `None` exactly when the stored attribute value is `None`) and
absent (`None`) otherwise, and its answer is independent of the host
context, the engine's own attributes, the process-wide globals and the
dotted-path scopes (the whole surrounding context). -/
theorem get_callable_method_class_scope (ctx ctx' : ResolveCtx) (m : String)
    (T : PyType) :
    get_callable_method ctx (some (.dstr m)) (some (.dtype T)) =
      .ok (if T.hasattr m then T.getattr m else none) ∧
    get_callable_method ctx (some (.dstr m)) (some (.dtype T)) =
      get_callable_method ctx' (some (.dstr m)) (some (.dtype T)) := by
  have h1 : ∀ c : ResolveCtx,
      get_callable_method c (some (.dstr m)) (some (.dtype T)) =
        .ok (if T.hasattr m then T.getattr m else none) := by
    intro c
    simp only [get_callable_method, get_callable_method.resolveName]
    cases h : T.hasattr m with
    | true => simp [h]
    | false => simp [h]
  exact ⟨h1 ctx, (h1 ctx).trans (h1 ctx').symm⟩

/-- C6: a single-element descriptor parses to (None, s, None, None) for a
string s, to (None, None, T, None) for a type T, and any other single value
fails with the `InvalidDescriptor` `ValueError`. -/
theorem parse_single_element (ctx : ResolveCtx) :
    (∀ s, parse_step ctx [.dstr s] = .ok ⟨none, some s, none, none⟩) ∧
    (∀ T, parse_step ctx [.dtype T] = .ok ⟨none, none, some T, none⟩) ∧
    (∀ m, parse_step ctx [.ddict m] =
      .error (.valueError "Parameter must be a string or a class")) ∧
    (∀ v, parse_step ctx [.dother v] =
      .error (.valueError "Parameter must be a string or a class")) :=
  ⟨fun _ => rfl, fun _ => rfl, fun _ => rfl, fun _ => rfl⟩

/-- C8 counterexample: a 4-element descriptor whose first element is NOT a
string — here the type A — is accepted by `_parse_step` (the non-string
value is copied into the attribute slot) instead of failing with an
`InvalidDescriptor` error as the claim requires. -/
theorem parse_four_nonstring_first_accepted :
    parse_step ⟨[], [], [], []⟩
      [.dtype ⟨"A", []⟩, .dstr "m", .dtype ⟨"A", []⟩, .ddict []] =
      .ok ⟨some (.dtype ⟨"A", []⟩), some "m", some ⟨"A", []⟩, some (.ddict [])⟩ :=
  rfl

/-- C8 (amended): a 4-element descriptor is accepted, as
(attribute, method, type, arguments), exactly when its second, third and
fourth elements are (string, type, map); the first element is not checked
and is copied into the attribute slot verbatim. Any other shape of the last
three elements fails with the `InvalidDescriptor` `ValueError`. -/
theorem parse_four_element_shape (ctx : ResolveCtx) (e0 e1 e2 e3 : DElem) :
    (∀ s T m, e1 = .dstr s → e2 = .dtype T → e3 = .ddict m →
      parse_step ctx [e0, e1, e2, e3] =
        .ok ⟨some e0, some s, some T, some (.ddict m)⟩) ∧
    (((∀ s, e1 ≠ .dstr s) ∨ (∀ T, e2 ≠ .dtype T) ∨ (∀ m, e3 ≠ .ddict m)) →
      parse_step ctx [e0, e1, e2, e3] =
        .error (.valueError "Tuple with 4 elements must be (str, str, class, dict)")) := by
  constructor
  · rintro s T m rfl rfl rfl
    rfl
  · intro h
    cases e1 with
    | dstr s1 =>
      cases e2 with
      | dtype T2 =>
        cases e3 with
        | ddict m3 =>
          exfalso
          rcases h with h | h | h
          · exact h s1 rfl
          · exact h T2 rfl
          · exact h m3 rfl
        | dstr x => rfl
        | dtype x => rfl
        | dother x => rfl
      | dstr x => cases e3 <;> rfl
      | ddict x => cases e3 <;> rfl
      | dother x => cases e3 <;> rfl
    | dtype x => cases e2 <;> cases e3 <;> rfl
    | ddict x => cases e2 <;> cases e3 <;> rfl
    | dother x => cases e2 <;> cases e3 <;> rfl

/-- Witness for C8 (amended): an int first element is accepted verbatim;
a string third element (not a type) is rejected. -/
theorem parse_four_element_shape_witness :
    parse_step ⟨[], [], [], []⟩
      [.dother (.vint 5), .dstr "m", .dtype ⟨"A", []⟩, .ddict []] =
      .ok ⟨some (.dother (.vint 5)), some "m", some ⟨"A", []⟩, some (.ddict [])⟩ ∧
    parse_step ⟨[], [], [], []⟩
      [.dstr "a", .dstr "m", .dstr "x", .ddict []] =
      .error (.valueError "Tuple with 4 elements must be (str, str, class, dict)") := by
  constructor
  · exact (parse_four_element_shape ⟨[], [], [], []⟩ (.dother (.vint 5))
      (.dstr "m") (.dtype ⟨"A", []⟩) (.ddict [])).1 "m" ⟨"A", []⟩ [] rfl rfl rfl
  · exact (parse_four_element_shape ⟨[], [], [], []⟩ (.dstr "a") (.dstr "m")
      (.dstr "x") (.ddict [])).2 (Or.inr (Or.inl (fun T hT => nomatch hT)))

/-! ## Claims about the Stage Executor -/

/-- C5 counterexample: the type TFit exposes a `fit` attribute, yet the
executor's construct-only path instantiates it and returns the instance
WITHOUT invoking `fit`: the recorded action is `construct`, not the
fit-invoking `constructFit`, contradicting the claim that `fit` is invoked
whenever the type exposes a fit capability. -/
theorem run_step_construct_no_fit_cex :
    (⟨"TFit", [("fit", false)]⟩ : PyType).hasattr "fit" = true ∧
    run_step ⟨[], []⟩ (.pyclass ⟨"TFit", [("fit", false)]⟩) [] =
      .ok (.construct ⟨"TFit", [("fit", false)]⟩ []) ∧
    RunAction.construct ⟨"TFit", [("fit", false)]⟩ [] ≠
      RunAction.constructFit ⟨"TFit", [("fit", false)]⟩ [] := by
  refine ⟨rfl, rfl, fun h => nomatch h⟩

/-- C5 (amended): a construct-only stage (target resolved to a class
object) is instantiated with the built keyword arguments and the instance
is returned with no fit invocation, whether or not the type exposes `fit`;
the unconditional `fit()` call happens only on the path where the target is
a string naming a class among the engine module's globals. -/
theorem run_step_construct_only (ctx : ExecCtx) (T : PyType) (params : ArgMap) :
    run_step ctx (.pyclass T) params = .ok (.construct T params) ∧
    (∀ s, alookup ctx.moduleGlobals s = some (.pyclass T) →
      run_step ctx (.pystr s) params = .ok (.constructFit T params)) := by
  refine ⟨rfl, ?_⟩
  intro s hs
  simp [run_step, hs]

/-- Witness for C5 (amended): a class target is constructed without fit;
the same class reached through a module-globals string gets `fit()`. -/
theorem run_step_construct_only_witness :
    run_step ⟨[("C", .pyclass ⟨"C", []⟩)], []⟩ (.pyclass ⟨"C", []⟩) [] =
      .ok (.construct ⟨"C", []⟩ []) ∧
    run_step ⟨[("C", .pyclass ⟨"C", []⟩)], []⟩ (.pystr "C") [] =
      .ok (.constructFit ⟨"C", []⟩ []) :=
  ⟨(run_step_construct_only ⟨[("C", .pyclass ⟨"C", []⟩)], []⟩ ⟨"C", []⟩ []).1,
    (run_step_construct_only ⟨[("C", .pyclass ⟨"C", []⟩)], []⟩ ⟨"C", []⟩ []).2
      "C" rfl⟩

/-! ## Claims about the Pipeline Container -/

/-- C7 counterexample: before the run completed (`run_ = false`),
`get_attribute` does not fail: it returns Python `None` — even for the
name `result` that was never stored. -/
theorem get_attribute_before_run_cex :
    get_attribute false [] "result" = .ok PyVal.vnone ∧
    ¬ ∃ e, get_attribute false [] "result" = .error e := by
  refine ⟨rfl, ?_⟩
  rintro ⟨e, he⟩
  exact nomatch he

/-- C7 (amended): `get_attribute` returns `None` (it does not fail) when
the run has not completed; after a completed run it returns the stored
value when the name is present in the attribute store and fails with
`AttributeError` when the name is absent. -/
theorem get_attribute_after_run (attrs : List (String × PyVal))
    (name : String) :
    get_attribute false attrs name = .ok PyVal.vnone ∧
    (∀ v, alookup attrs name = some v → get_attribute true attrs name = .ok v) ∧
    (alookup attrs name = none →
      get_attribute true attrs name =
        .error (.attributeError ("Attribute " ++ name ++ " not found"))) := by
  refine ⟨rfl, ?_, ?_⟩
  · intro v hv
    simp [get_attribute, hv]
  · intro hn
    simp [get_attribute, hn]

/-- Witness for C7 (amended). -/
theorem get_attribute_after_run_witness :
    get_attribute false [("x", PyVal.vint 3)] "x" = .ok PyVal.vnone ∧
    get_attribute true [("x", PyVal.vint 3)] "x" = .ok (PyVal.vint 3) ∧
    get_attribute true [("x", PyVal.vint 3)] "y" =
      .error (.attributeError ("Attribute " ++ "y" ++ " not found")) :=
  ⟨(get_attribute_after_run [("x", PyVal.vint 3)] "x").1,
    (get_attribute_after_run [("x", PyVal.vint 3)] "x").2.1 (PyVal.vint 3) rfl,
    (get_attribute_after_run [("x", PyVal.vint 3)] "y").2.2 rfl⟩

/-- C9: a stage whose argument map binds the queried name to the value
`None` is invisible to the three argument-query helpers: removing that
stage changes neither `contains_argument`'s count, nor
`get_argument_value`'s first value, nor `all_argument_values`' ordered
collection. -/
theorem none_valued_argument_invisible (pre post : List Stage) (st : Stage)
    (a : String) (m : ArgMap)
    (hm : st.arguments = some m) (ha : alookup m a = some PyVal.vnone) :
    contains_argument (pre ++ st :: post) a = contains_argument (pre ++ post) a ∧
    get_argument_value (pre ++ st :: post) a = get_argument_value (pre ++ post) a ∧
    all_argument_values (pre ++ st :: post) a = all_argument_values (pre ++ post) a := by
  have hget : argGet st.arguments a = none := by simp [argGet, hm, ha]
  induction pre with
  | nil =>
    simp [contains_argument, get_argument_value, all_argument_values, hget]
  | cons x xs ih =>
    obtain ⟨ih1, ih2, ih3⟩ := ih
    refine ⟨?_, ?_, ?_⟩
    · show (match argGet x.arguments a with | some _ => 1 | none => 0) +
        contains_argument (xs ++ st :: post) a =
        (match argGet x.arguments a with | some _ => 1 | none => 0) +
        contains_argument (xs ++ post) a
      rw [ih1]
    · show (match argGet x.arguments a with
          | some v => some v
          | none => get_argument_value (xs ++ st :: post) a) =
        (match argGet x.arguments a with
          | some v => some v
          | none => get_argument_value (xs ++ post) a)
      cases argGet x.arguments a <;> simp [ih2]
    · show (match argGet x.arguments a with
          | some v => v :: all_argument_values (xs ++ st :: post) a
          | none => all_argument_values (xs ++ st :: post) a) =
        (match argGet x.arguments a with
          | some v => v :: all_argument_values (xs ++ post) a
          | none => all_argument_values (xs ++ post) a)
      cases argGet x.arguments a <;> simp [ih3]

/-- Witness for C9: a stage binding `x` to `None` placed before a stage
binding `x` to 1 is invisible to all three helpers. -/
theorem none_valued_argument_invisible_witness :
    contains_argument [⟨none, none, some [("x", PyVal.vnone)]⟩,
        ⟨none, none, some [("x", PyVal.vint 1)]⟩] "x" =
      contains_argument [⟨none, none, some [("x", PyVal.vint 1)]⟩] "x" ∧
    get_argument_value [⟨none, none, some [("x", PyVal.vnone)]⟩,
        ⟨none, none, some [("x", PyVal.vint 1)]⟩] "x" =
      get_argument_value [⟨none, none, some [("x", PyVal.vint 1)]⟩] "x" ∧
    all_argument_values [⟨none, none, some [("x", PyVal.vnone)]⟩,
        ⟨none, none, some [("x", PyVal.vint 1)]⟩] "x" =
      all_argument_values [⟨none, none, some [("x", PyVal.vint 1)]⟩] "x" :=
  none_valued_argument_invisible [] [⟨none, none, some [("x", PyVal.vint 1)]⟩]
    ⟨none, none, some [("x", PyVal.vnone)]⟩ "x" [("x", PyVal.vnone)] rfl rfl

end MLForge
